import Mathlib

/-!
# Verification of the ODIS → VCP converter (src/ODIS2VCP.py)

Shallow embedding of the data-transformation core of the converter:
the hex codec (`convert_to_binary`, the comma-separated `0x`-encoding),
the CRC update step (`update_crc`, via the semantics of
`crcmod.mkCrcFun(0x104c11db7, initCrc=0, xorOut=0xFFFFFFFF)` whose `rev`
parameter defaults to `True`), the ODIS parser loop (`parse_odis_file`
over the outcome of `ET.fromstring`), the VCP serializer
(`convert_dataset_to_vcp`), and the pipeline steps of `main` /
`export_output` that pick the dataset the update and the output apply to.

Python strings are modelled as lists of characters, byte strings as lists
of naturals below 256, Python ints as `Int`/`Nat` (arbitrary precision, as
in Python), exceptions as `Option`/`Except` results, and mutation of a
dataset as explicit state passing.
-/

set_option maxRecDepth 8192

/-- Python strings are modelled as lists of characters. -/
abbrev Str := List Char

/-- ASCII whitespace characters matched by the regex class backslash-s
(Python also matches some further Unicode whitespace; only ASCII matters
for the texts handled here, all of which are hex digits, commas and
`0x` prefixes). -/
def isPyWs (c : Char) : Bool :=
  c == ' ' || c == '\t' || c == '\n' || c == '\r' || c == '\x0b' || c == '\x0c'

/-- One lowercase hexadecimal digit, as produced by Python `%x` / `:x`
formatting: code point `'0' + d` for values below ten, `'a' + d - 10`
above. Arguments are always below 16 at use sites. -/
def hexDigit (d : Nat) : Char :=
  if d < 10 then Char.ofNat (48 + d) else Char.ofNat (87 + d)

/-- Value of one hexadecimal digit character, upper or lower case
(the digit set accepted by `binascii.unhexlify` and by `int(s, 16)`). -/
def hexVal? (c : Char) : Option Nat :=
  if '0' ≤ c ∧ c ≤ '9' then some (c.toNat - 48)
  else if 'a' ≤ c ∧ c ≤ 'f' then some (c.toNat - 87)
  else if 'A' ≤ c ∧ c ≤ 'F' then some (c.toNat - 55)
  else none

/-- Accumulator loop for `natHex`; the first argument is fuel (at least the
number of hex digits of `n`, which `natHex` guarantees). -/
def natHexAux : Nat → Nat → Str → Str
  | 0, _, acc => acc
  | fuel + 1, n, acc =>
    if n = 0 then acc else natHexAux fuel (n / 16) (hexDigit (n % 16) :: acc)

/-- Lowercase hexadecimal digits of a natural number without leading zeros,
with `0` rendered as `"0"`: Python `f"{n:x}"` for non-negative `n`. -/
def natHex (n : Nat) : Str :=
  if n = 0 then ['0'] else natHexAux n n []

/-- Python `f"{i:x}"` for an arbitrary integer: a minus sign followed by the
hex digits of the magnitude when negative. -/
def pyHexLower (i : Int) : Str :=
  if i < 0 then '-' :: natHex i.natAbs else natHex i.natAbs

/-- Python `f"{b:02x}"`: lowercase hex padded with zeros to width two. -/
def hex2 (b : Nat) : Str :=
  let s := natHex b
  if s.length = 1 then '0' :: s else s

/-- The canonical VCP payload encoding of src line 278:
`','.join(f"0x{b:02x}" for b in data)`. -/
def vcpHexEncode : List Nat → Str
  | [] => []
  | [b] => '0' :: 'x' :: hex2 b
  | b :: b2 :: rest => '0' :: 'x' :: hex2 b ++ ',' :: vcpHexEncode (b2 :: rest)

/-- Python `s.replace('0x', '')`: left-to-right removal of non-overlapping
occurrences of the two-character substring `0x`. -/
def replace0x : Str → Str
  | [] => []
  | [c] => [c]
  | c1 :: c2 :: rest =>
    if c1 = '0' ∧ c2 = 'x' then replace0x rest
    else c1 :: replace0x (c2 :: rest)

/-- Semantics of `binascii.unhexlify`: an even-length string of hex digits
decodes to bytes, anything else (odd length or a non-hex character) raises
`binascii.Error`, modelled as `none`. -/
def unhexlify : Str → Option (List Nat)
  | [] => some []
  | [_] => none
  | c1 :: c2 :: rest => do
    let hi ← hexVal? c1
    let lo ← hexVal? c2
    let r ← unhexlify rest
    pure ((16 * hi + lo) :: r)

/-- Embedding of `convert_to_binary` (src lines 169-191): `None` decodes to
the empty byte string; otherwise the substring `0x`, all whitespace and all
commas are removed and the remainder is passed to `binascii.unhexlify`.
A `binascii.Error` propagates (`none`). -/
def convert_to_binary : Option Str → Option (List Nat)
  | none => some []
  | some s =>
    unhexlify (((replace0x s).filter (fun c => !isPyWs c)).filter (fun c => !(c == ',')))

/-! ## CRC (src lines 31-34 and 205-217, via crcmod) -/

/-- Source constant (src line 32). -/
def CRC32_POLYNOMIAL : Nat := 0x104c11db7

/-- Source constant (src line 33). -/
def CRC32_INIT_VALUE : Nat := 0

/-- Source constant (src line 34). -/
def CRC32_XOR_OUT : Nat := 0xFFFFFFFF

/-- Bit reversal over a fixed width (crcmod `_bitrev`): the first argument
is the remaining width, the third the accumulator. -/
def bitrev : Nat → Nat → Nat → Nat
  | 0, _, y => y
  | n + 1, x, y => bitrev n (x >>> 1) ((y <<< 1) ||| (x &&& 1))

/-- Eight shift-and-conditionally-xor steps of the reflected (LSB-first)
CRC bit loop (crcmod `_bytecrc_r`); first argument is the step count. -/
def bytecrc_r : Nat → Nat → Nat → Nat
  | 0, crc, _ => crc
  | i + 1, crc, poly =>
    bytecrc_r i (if crc &&& 1 = 1 then (crc >>> 1) ^^^ poly else crc >>> 1) poly

/-- The bit-reversed 32-bit polynomial used by crcmod's reflected table
(crcmod `_mkTable_r`: the generator with its leading bit masked off,
bit-reversed over 32 bits). -/
def crcRevPoly : Nat := bitrev 32 (CRC32_POLYNOMIAL &&& 0xFFFFFFFF) 0

/-- One byte of the reflected CRC loop (crcmod `_crc32r`): the table lookup
`table[(crc ^ x) & 0xFF]` is the eight bit-steps on that index. -/
def crcStep_r (crc x : Nat) : Nat :=
  bytecrc_r 8 ((crc ^^^ x) &&& 0xFF) crcRevPoly ^^^ (crc >>> 8)

/-- The checksum function built at src lines 206-210:
`crcmod.mkCrcFun(CRC32_POLYNOMIAL, initCrc=CRC32_INIT_VALUE,
xorOut=CRC32_XOR_OUT)`. crcmod's `rev` parameter defaults to `True`
(reflected algorithm), and with a non-zero `xorOut` crcmod starts the
register at `initCrc ^ xorOut` and xors the final register with `xorOut`. -/
def crc32_func (data : List Nat) : Nat :=
  CRC32_XOR_OUT ^^^
    data.foldl crcStep_r ((CRC32_INIT_VALUE ^^^ CRC32_XOR_OUT) &&& 0xFFFFFFFF)

/-- Python `n.to_bytes(4, byteorder='little')` for `n` below 2^32:
least-significant byte first. -/
def toLE4 (n : Nat) : List Nat :=
  [n % 256, n / 256 % 256, n / 65536 % 256, n / 16777216 % 256]

/-! ## Datasets and the CRC update (src lines 37-59 and 194-222) -/

/-- Embedding of class `DatasetODIS` (src lines 37-59). The address fields
are Python ints (arbitrary-precision, possibly negative); the optional
text fields default to `None` as in `__init__`. -/
structure DatasetODIS where
  data : List Nat
  address : Int
  start_address : Int
  name : Option Str := none
  version : Option Str := none
  login : Option Str := none
deriving DecidableEq, Repr

/-- Embedding of `update_crc` (src lines 194-222). The mutation of
`dataset.data` is explicit state passing: the function returns the updated
dataset together with the returned CRC value. Python `new_data[:-4]` is
`take (length - 4)` (empty when the input is shorter than 4 bytes, by the
clamping of both Python slices and Nat subtraction). -/
def update_crc (dataset : DatasetODIS) (new_data : List Nat) : DatasetODIS × Nat :=
  let ds1 : DatasetODIS := { dataset with data := new_data }
  let base_data := ds1.data.take (ds1.data.length - 4)
  let new_crc := crc32_func base_data
  ({ ds1 with data := base_data ++ toLE4 new_crc }, new_crc)

/-! ## XML document model (the interface to xml.etree.ElementTree) -/

/-- An ElementTree element: tag, attributes in document order, text
content (`None` or a string, as in ElementTree), and child elements. -/
inductive XMLElem where
  | mk (tag : Str) (attrs : List (Str × Str)) (text : Option Str) (children : List XMLElem)

/-- Tag of an element. -/
def XMLElem.tag : XMLElem → Str
  | .mk t _ _ _ => t

/-- Attribute list of an element. -/
def XMLElem.attrs : XMLElem → List (Str × Str)
  | .mk _ a _ _ => a

/-- Text content of an element (`None` when absent, as in ElementTree). -/
def XMLElem.text : XMLElem → Option Str
  | .mk _ _ tx _ => tx

/-- Child elements of an element. -/
def XMLElem.children : XMLElem → List XMLElem
  | .mk _ _ _ c => c

/-- First attribute with the given key (XML attributes are unique, so
first-match lookup is the ElementTree `get` semantics). -/
def lookupAttr : List (Str × Str) → Str → Option Str
  | [], _ => none
  | (k, v) :: rest, key => if k = key then some v else lookupAttr rest key

/-- ElementTree `element.get(key, default)`. -/
def XMLElem.get (e : XMLElem) (key dflt : Str) : Str :=
  match lookupAttr e.attrs key with
  | some v => v
  | none => dflt

/-- ElementTree `element.get(key)` (default `None`). -/
def XMLElem.getOpt (e : XMLElem) (key : Str) : Option Str :=
  lookupAttr e.attrs key

mutual

/-- ElementTree `tree.iter('PARAMETER_DATA')` (src line 141): all elements
with that tag, at any depth, in document (preorder) order, the root
included when it matches. -/
def iterPD : XMLElem → List XMLElem
  | .mk tag attrs text children =>
    (if tag = "PARAMETER_DATA".toList then [XMLElem.mk tag attrs text children] else []) ++
      iterPDL children

/-- Preorder traversal of a list of sibling elements for `iterPD`. -/
def iterPDL : List XMLElem → List XMLElem
  | [] => []
  | c :: cs => iterPD c ++ iterPDL cs

end

/-! ## int(s, 16) -/

/-- Digits of a base-16 literal, with Python's underscore rule: single
underscores may separate digits (a leading underscore relative to this
loop is allowed only when the caller consumed a `0x` prefix). -/
def hexDigitsVal : Str → Nat → Option Nat
  | [], acc => some acc
  | '_' :: rest, acc =>
    match rest with
    | [] => none
    | d :: rest2 =>
      match hexVal? d with
      | some v => hexDigitsVal rest2 (acc * 16 + v)
      | none => none
  | c :: rest, acc =>
    match hexVal? c with
    | some v => hexDigitsVal rest (acc * 16 + v)
    | none => none

/-- Python `int(s, 16)`: surrounding whitespace is ignored, then an
optional sign, an optional `0x`/`0X` prefix (an underscore may follow the
prefix), then at least one hex digit with single underscores allowed
between digits. Any other string raises `ValueError`, modelled as `none`. -/
def pyIntHex? (s : Str) : Option Int :=
  let t := ((s.dropWhile isPyWs).reverse.dropWhile isPyWs).reverse
  let signed : Bool × Str :=
    match t with
    | '+' :: r => (false, r)
    | '-' :: r => (true, r)
    | r => (false, r)
  let core : Option Nat :=
    match signed.2 with
    | '0' :: 'x' :: r =>
      match r with
      | [] => none
      | _ => hexDigitsVal r 0
    | '0' :: 'X' :: r =>
      match r with
      | [] => none
      | _ => hexDigitsVal r 0
    | [] => none
    | c :: r =>
      match hexVal? c with
      | some v => hexDigitsVal r v
      | none => none
  match core with
  | some n => some (if signed.1 then -(n : Int) else (n : Int))
  | none => none

/-! ## The ODIS parser (src lines 120-166) -/

/-- The body of one iteration of the `PARAMETER_DATA` loop
(src lines 142-158): attributes are read with default `'0'`, the text is
decoded with `convert_to_binary`, the addresses with `int(s, 16)`, and the
optional name/version/login attributes are attached. Any `ValueError`,
`TypeError` or `binascii.Error` makes the entry yield `none` (the loop's
`except` branch: skip and continue). -/
def parseEntry (param : XMLElem) : Option DatasetODIS :=
  let diag_addr_str := param.get "DIAGNOSTIC_ADDRESS".toList "0".toList
  let start_addr_str := param.get "START_ADDRESS".toList "0".toList
  match convert_to_binary param.text, pyIntHex? diag_addr_str, pyIntHex? start_addr_str with
  | some data, some address, some start_address =>
    some { data := data, address := address, start_address := start_address,
           name := param.getOpt "ZDC_NAME".toList,
           version := param.getOpt "ZDC_VERSION".toList,
           login := param.getOpt "LOGIN".toList }
  | _, _, _ => none

/-- The accumulation loop over `tree.iter('PARAMETER_DATA')`: successful
entries are appended, failing entries are skipped with a warning. -/
def parseLoop : List XMLElem → List DatasetODIS → List DatasetODIS
  | [], acc => acc
  | p :: rest, acc =>
    match parseEntry p with
    | some ds => parseLoop rest (acc ++ [ds])
    | none => parseLoop rest acc

/-- The error value of `xml.etree.ElementTree.ParseError`, abstracted to
its message. -/
abbrev ETParseError := Str

/-- Embedding of `parse_odis_file` (src lines 120-166) over the outcome of
the external XML parser `ET.fromstring`: a `ParseError` is logged and
re-raised unchanged (src lines 133-137), otherwise every `PARAMETER_DATA`
element is processed by the loop. -/
def parse_odis_file (parsed : Except ETParseError XMLElem) :
    Except ETParseError (List DatasetODIS) :=
  match parsed with
  | .error e => .error e
  | .ok tree => .ok (parseLoop (iterPD tree) [])

/-! ## The VCP serializer (src lines 225-284) -/

/-- Python `x or y` for an optional string `x`: `y` when `x` is `None` or
the empty string (both falsy), `x`'s value otherwise. -/
def pyOrStr (x : Option Str) (y : Str) : Str :=
  match x with
  | some s => if s = [] then y else s
  | none => y

/-- The element tree built by `convert_dataset_to_vcp` (src lines 250-279):
root `SW-CNT` with an `IDENT` section and a `DATENBEREICHE`/`DATENBEREICH`
section, the resolved name being `dataset.name or
f'{input_name}-{dataset.address:x}'`. -/
def vcpRoot (dataset : DatasetODIS) (input_name : Str) : XMLElem :=
  let name := pyOrStr dataset.name (input_name ++ '-' :: pyHexLower dataset.address)
  XMLElem.mk "SW-CNT".toList [] none
    [XMLElem.mk "IDENT".toList [] none
      [XMLElem.mk "LOGIN".toList [] (some (pyOrStr dataset.login [])) [],
       XMLElem.mk "DATAIID".toList [] (some name) [],
       XMLElem.mk "VERSION-INHALT".toList [] (some (pyOrStr dataset.version [])) []],
     XMLElem.mk "DATENBEREICHE".toList [] none
      [XMLElem.mk "DATENBEREICH".toList [] none
        [XMLElem.mk "DATEN-NAME".toList [] (some name) [],
         XMLElem.mk "DATEN-FORMAT_NAME".toList [] (some "DFN_HEX".toList) [],
         XMLElem.mk "START-ADR".toList []
           (some ('0' :: 'x' :: pyHexLower dataset.start_address)) [],
         XMLElem.mk "GROESSE-DEKOMPRIMIERT".toList []
           (some ('0' :: 'x' :: natHex dataset.data.length)) [],
         XMLElem.mk "DATEN".toList [] (some (vcpHexEncode dataset.data)) []]]]

/-- ElementTree `_escape_cdata`: text content escaping of `&`, `<`, `>`. -/
def escapeCdata : Str → Str
  | [] => []
  | c :: rest =>
    if c = '&' then "&amp;".toList ++ escapeCdata rest
    else if c = '<' then "&lt;".toList ++ escapeCdata rest
    else if c = '>' then "&gt;".toList ++ escapeCdata rest
    else c :: escapeCdata rest

/-- ElementTree `_escape_attrib`: attribute value escaping. -/
def escapeAttrib : Str → Str
  | [] => []
  | c :: rest =>
    if c = '&' then "&amp;".toList ++ escapeAttrib rest
    else if c = '<' then "&lt;".toList ++ escapeAttrib rest
    else if c = '>' then "&gt;".toList ++ escapeAttrib rest
    else if c = '"' then "&quot;".toList ++ escapeAttrib rest
    else if c = '\r' then "&#13;".toList ++ escapeAttrib rest
    else if c = '\n' then "&#10;".toList ++ escapeAttrib rest
    else if c = '\t' then "&#09;".toList ++ escapeAttrib rest
    else c :: escapeAttrib rest

/-- Serialized attribute list, in document order as kept by ElementTree. -/
def attrsString : List (Str × Str) → Str
  | [] => []
  | (k, v) :: rest => ' ' :: k ++ '=' :: '"' :: escapeAttrib v ++ '"' :: attrsString rest

mutual

/-- ElementTree `ET.tostring(root, encoding="unicode")` with the default
short-empty-elements serialization: an element with falsy text and no
children is written `<tag />`; otherwise text (escaped) and children
follow the start tag. -/
def serializeXML : XMLElem → Str
  | .mk tag attrs text children =>
    let txt : Str := match text with | none => [] | some s => s
    if txt.isEmpty && children.isEmpty then
      '<' :: tag ++ attrsString attrs ++ " />".toList
    else
      '<' :: tag ++ attrsString attrs ++ '>' :: escapeCdata txt ++
        serializeXMLL children ++ '<' :: '/' :: tag ++ ['>']

/-- Serialization of a list of sibling elements for `serializeXML`. -/
def serializeXMLL : List XMLElem → Str
  | [] => []
  | c :: cs => serializeXML c ++ serializeXMLL cs

end

/-- Embedding of class `ConversionResult` (src lines 62-79). -/
structure ConversionResult where
  dataset : DatasetODIS
  vcp : Str
deriving DecidableEq

/-- Embedding of `convert_dataset_to_vcp` (src lines 239-284): the built
element tree serialized to text, paired with the (shared) dataset. -/
def convert_dataset_to_vcp (dataset : DatasetODIS) (input_name : Str) : ConversionResult :=
  { dataset := dataset, vcp := serializeXML (vcpRoot dataset input_name) }

/-- Embedding of `convert_to_vcp` (src lines 225-236). -/
def convert_to_vcp (datasets : List DatasetODIS) (input_name : Str) : List ConversionResult :=
  datasets.map (fun ds => convert_dataset_to_vcp ds input_name)

/-! ## Pipeline steps of main and export_output -/

/-- What `export_output` (src lines 287-339) writes to the output sink:
nothing when the conversion list is empty; in raw mode (`args.raw`) the
byte payload of `converted[0]`; otherwise — in both the `--modinput`
branch and the plain branch, which differ only in log text and derived
filename — the VCP text of `converted[0]`. -/
def export_output (converted : List ConversionResult) (raw modinput : Bool) :
    Option (List Nat ⊕ Str) :=
  match converted with
  | [] => none
  | r0 :: _ =>
    if raw then some (Sum.inl r0.dataset.data)
    else if modinput then some (Sum.inr r0.vcp)
    else some (Sum.inr r0.vcp)

/-- The modinput step of `main` (src lines 370-377): when a replacement
payload is supplied and the dataset list is non-empty, `update_crc` is
applied to `datasets[0]` in place; all other datasets are untouched. -/
def applyModinput (datasets : List DatasetODIS) (modinput : Option (List Nat)) :
    List DatasetODIS × Option Nat :=
  match modinput, datasets with
  | some new_data, d0 :: rest =>
    let r := update_crc d0 new_data
    (r.1 :: rest, some r.2)
  | _, _ => (datasets, none)

/-! ## Concrete documents used by the end-to-end claims -/

/-- The well-formed entry of the spec's end-to-end test: diagnostic address
`0x12`, start address `0x100`, payload text `0x01,0x02,0x03,0x04`, no name
attribute. -/
def sampleEntry : XMLElem :=
  XMLElem.mk "PARAMETER_DATA".toList
    [("DIAGNOSTIC_ADDRESS".toList, "0x12".toList),
     ("START_ADDRESS".toList, "0x100".toList)]
    (some "0x01,0x02,0x03,0x04".toList) []

/-- An entry whose payload text is not valid hex. -/
def badHexEntry : XMLElem :=
  XMLElem.mk "PARAMETER_DATA".toList [] (some "0xZZ".toList) []

/-- A document holding one valid and one invalid entry. -/
def mixedTree : XMLElem :=
  XMLElem.mk "DATASETS".toList [] none [sampleEntry, badHexEntry]

/-- The dataset extracted from `sampleEntry`. -/
def sampleDataset : DatasetODIS :=
  { data := [1, 2, 3, 4], address := 18, start_address := 256 }

/-! ## Spec-modelled reference checksum -/

/-- Eight MSB-first shift-and-conditionally-xor steps over the 32-bit
polynomial 0x04C11DB7; first argument is the step count. -/
def specMsbSteps : Nat → Nat → Nat
  | 0, crc => crc
  | i + 1, crc =>
    specMsbSteps i
      (if crc &&& 0x80000000 = 0x80000000 then ((crc <<< 1) ^^^ 0x04C11DB7) &&& 0xFFFFFFFF
       else (crc <<< 1) &&& 0xFFFFFFFF)

/-- Modelled from the spec: the checksum parameterization the spec asserts
for the code — a non-reflected (MSB-first) 32-bit CRC with polynomial
`0x04c11db7`, initial register value `0`, final XOR `0xFFFFFFFF`. It
exists only to compare the spec's claimed parameterization against the
code's `crc32_func`. -/
def crcSpecNonReflected (data : List Nat) : Nat :=
  0xFFFFFFFF ^^^
    data.foldl (fun crc x => specMsbSteps 8 (crc ^^^ ((x &&& 0xFF) <<< 24))) 0

/-- The nine ASCII bytes of the string `"123456789"`. -/
def ascii123456789 : List Nat := [0x31, 0x32, 0x33, 0x34, 0x35, 0x36, 0x37, 0x38, 0x39]

/-! ## Field accessors over the built VCP tree -/

/-- First child with the given tag. -/
def findChild (e : XMLElem) (t : Str) : Option XMLElem :=
  e.children.find? (fun c => c.tag == t)

/-- Text of the first child with the given tag. -/
def childText (e : XMLElem) (t : Str) : Option Str :=
  match findChild e t with
  | some c => c.text
  | none => none

/-- The `DATAIID` field of a VCP document (data identifier). -/
def vcpDataiidText (root : XMLElem) : Option Str :=
  match findChild root "IDENT".toList with
  | some ident => childText ident "DATAIID".toList
  | none => none

/-- The `DATENBEREICH` section of a VCP document. -/
def vcpDataSection (root : XMLElem) : Option XMLElem :=
  match findChild root "DATENBEREICHE".toList with
  | some s1 => findChild s1 "DATENBEREICH".toList
  | none => none

/-- The `DATEN-NAME` field of a VCP document (data-region name). -/
def vcpDatenNameText (root : XMLElem) : Option Str :=
  match vcpDataSection root with
  | some s => childText s "DATEN-NAME".toList
  | none => none

/-- The `START-ADR` field of a VCP document. -/
def vcpStartAdrText (root : XMLElem) : Option Str :=
  match vcpDataSection root with
  | some s => childText s "START-ADR".toList
  | none => none

/-- The `GROESSE-DEKOMPRIMIERT` field of a VCP document. -/
def vcpSizeText (root : XMLElem) : Option Str :=
  match vcpDataSection root with
  | some s => childText s "GROESSE-DEKOMPRIMIERT".toList
  | none => none

/-- The `DATEN` field of a VCP document (hex payload). -/
def vcpDatenText (root : XMLElem) : Option Str :=
  match vcpDataSection root with
  | some s => childText s "DATEN".toList
  | none => none

/-- Concatenation of the two-digit encodings of a byte list: what remains
of the canonical encoding after prefix, whitespace and comma removal. -/
def hexFlat : List Nat → Str
  | [] => []
  | b :: rest => hex2 b ++ hexFlat rest

/-- The canonical encoding with the `0x` prefixes removed but the commas
still in place. -/
def hexBody : List Nat → Str
  | [] => []
  | [b] => hex2 b
  | b :: b2 :: rest => hex2 b ++ ',' :: hexBody (b2 :: rest)

/-! ## Theorems

First the round-trip of the hex codec (claim C1), then the CRC update
(C2, C3, C10), the checksum parameterization (C4), parsing (C5, C6),
serialization (C7, C8) and the pipeline (C9). -/

theorem hexVal_hexDigit : ∀ d : Fin 16, hexVal? (hexDigit d.val) = some d.val := by decide

theorem hex2_eq_digits :
    ∀ b : Fin 256, hex2 b.val = [hexDigit (b.val / 16), hexDigit (b.val % 16)] := by decide

theorem hex2_tame :
    ∀ b : Fin 256, ∀ c ∈ hex2 b.val, c ≠ 'x' ∧ isPyWs c = false ∧ c ≠ ',' := by decide

theorem replace0x_cons2 (c1 c2 : Char) (rest : Str) :
    replace0x (c1 :: c2 :: rest) =
      if c1 = '0' ∧ c2 = 'x' then replace0x rest else c1 :: replace0x (c2 :: rest) := rfl

theorem replace0x_append (cs rest : Str) (hcs : ∀ c ∈ cs, c ≠ 'x')
    (hrest : ∀ c ∈ rest.head?, c ≠ 'x') :
    replace0x (cs ++ rest) = cs ++ replace0x rest := by
  induction cs with
  | nil => simp
  | cons c cs ih =>
    cases cs with
    | nil =>
      cases rest with
      | nil => simp [replace0x]
      | cons r rs =>
        have hr : r ≠ 'x' := hrest r (by simp)
        simp only [List.nil_append, List.cons_append, replace0x_cons2]
        rw [if_neg (fun hx => hr hx.2)]
    | cons c2 cs2 =>
      have hc2 : c2 ≠ 'x' := hcs c2 (by simp)
      have ih2 := ih (fun d hd => hcs d (by simp [hd]))
      simp only [List.cons_append] at ih2 ⊢
      rw [replace0x_cons2, if_neg (fun hx => hc2 hx.2), ih2]

theorem vcpHexEncode_head (b : Nat) (l : List Nat) :
    ∃ t, vcpHexEncode (b :: l) = '0' :: 'x' :: t := by
  cases l with
  | nil => exact ⟨hex2 b, rfl⟩
  | cons c cs => exact ⟨hex2 b ++ ',' :: vcpHexEncode (c :: cs), rfl⟩

theorem replace0x_encode (l : List Nat) (h : ∀ b ∈ l, b < 256) :
    replace0x (vcpHexEncode l) = hexBody l := by
  induction l with
  | nil => rfl
  | cons b l ih =>
    have hb : b < 256 := h b (by simp)
    have htame : ∀ c ∈ hex2 b, c ≠ 'x' ∧ isPyWs c = false ∧ c ≠ ',' := hex2_tame ⟨b, hb⟩
    cases l with
    | nil =>
      show replace0x ('0' :: 'x' :: hex2 b) = hex2 b
      rw [replace0x_cons2, if_pos ⟨rfl, rfl⟩]
      have := replace0x_append (hex2 b) [] (fun c hc => (htame c hc).1) (by simp)
      simpa [replace0x] using this
    | cons b2 l2 =>
      have ih2 := ih (fun d hd => h d (by simp [hd]))
      show replace0x ('0' :: 'x' :: (hex2 b ++ ',' :: vcpHexEncode (b2 :: l2)))
          = hex2 b ++ ',' :: hexBody (b2 :: l2)
      rw [replace0x_cons2, if_pos ⟨rfl, rfl⟩]
      rw [replace0x_append (hex2 b) (',' :: vcpHexEncode (b2 :: l2))
            (fun c hc => (htame c hc).1) (by simp)]
      obtain ⟨t, ht⟩ := vcpHexEncode_head b2 l2
      rw [ht, replace0x_cons2, if_neg (by simp)]
      rw [← ht, ih2]

theorem filterWs_comma (t : Str) :
    (',' :: t).filter (fun c => !isPyWs c) = ',' :: t.filter (fun c => !isPyWs c) := rfl

theorem filterComma_comma (t : Str) :
    (',' :: t).filter (fun c => !(c == ',')) = t.filter (fun c => !(c == ',')) := rfl

theorem filters_hexBody (l : List Nat) (h : ∀ b ∈ l, b < 256) :
    ((hexBody l).filter (fun c => !isPyWs c)).filter (fun c => !(c == ',')) = hexFlat l := by
  induction l with
  | nil => rfl
  | cons b l ih =>
    have htame : ∀ c ∈ hex2 b, c ≠ 'x' ∧ isPyWs c = false ∧ c ≠ ',' :=
      hex2_tame ⟨b, h b (by simp)⟩
    have hws : (hex2 b).filter (fun c => !isPyWs c) = hex2 b :=
      List.filter_eq_self.mpr (fun c hc => by simp [(htame c hc).2.1])
    have hcm : (hex2 b).filter (fun c => !(c == ',')) = hex2 b :=
      List.filter_eq_self.mpr (fun c hc => by simp [(htame c hc).2.2])
    cases l with
    | nil =>
      show ((hex2 b).filter _).filter _ = hexFlat [b]
      rw [hws, hcm]
      simp [hexFlat]
    | cons b2 l2 =>
      have ih2 := ih (fun d hd => h d (by simp [hd]))
      show ((hex2 b ++ ',' :: hexBody (b2 :: l2)).filter _).filter _
          = hex2 b ++ hexFlat (b2 :: l2)
      rw [List.filter_append, hws, filterWs_comma, List.filter_append, hcm,
        filterComma_comma, ih2]

theorem unhexlify_hexFlat (l : List Nat) (h : ∀ b ∈ l, b < 256) :
    unhexlify (hexFlat l) = some l := by
  induction l with
  | nil => rfl
  | cons b l ih =>
    have hb : b < 256 := h b (by simp)
    have hdig : hex2 b = [hexDigit (b / 16), hexDigit (b % 16)] := hex2_eq_digits ⟨b, hb⟩
    have hhi : b / 16 < 16 := by omega
    have hlo : b % 16 < 16 := by omega
    have h1 : hexVal? (hexDigit (b / 16)) = some (b / 16) := hexVal_hexDigit ⟨b / 16, hhi⟩
    have h2 : hexVal? (hexDigit (b % 16)) = some (b % 16) := hexVal_hexDigit ⟨b % 16, hlo⟩
    have ih2 := ih (fun d hd => h d (by simp [hd]))
    show unhexlify (hex2 b ++ hexFlat l) = some (b :: l)
    rw [hdig]
    show unhexlify (hexDigit (b / 16) :: hexDigit (b % 16) :: hexFlat l) = some (b :: l)
    rw [unhexlify, h1, h2, ih2]
    simp [Nat.div_add_mod]

/-- C1: for every byte sequence, decoding the canonical comma-separated
`0x`-prefixed two-digit lowercase hex encoding produced by the serializer
returns the original bytes (the empty sequence encodes to the empty string,
which decodes to the empty byte sequence). -/
theorem C1_decode_encode_roundtrip (b : List Nat) (h : ∀ x ∈ b, x < 256) :
    convert_to_binary (some (vcpHexEncode b)) = some b := by
  show unhexlify _ = some b
  rw [replace0x_encode b h, filters_hexBody b h, unhexlify_hexFlat b h]

/-- Witness for C1 at the bytes 0x0a, 0xff. -/
theorem C1_witness :
    convert_to_binary (some (vcpHexEncode [10, 255])) = some [10, 255] :=
  C1_decode_encode_roundtrip [10, 255] (by decide)


/-- C2: for new data of length at least 4, `update_crc` leaves the dataset
holding the first `len - 4` bytes of the new data followed by the 4-byte
little-endian encoding of the CRC computed over that prefix, restores the
original length, and returns that CRC as an integer. -/
theorem C2_update_writes_prefix_and_crc (ds : DatasetODIS) (nd : List Nat)
    (h : 4 ≤ nd.length) :
    (update_crc ds nd).1.data
        = nd.take (nd.length - 4) ++ toLE4 (crc32_func (nd.take (nd.length - 4)))
      ∧ (update_crc ds nd).2 = crc32_func (nd.take (nd.length - 4))
      ∧ (update_crc ds nd).1.data.length = nd.length := by
  refine ⟨rfl, rfl, ?_⟩
  show (nd.take (nd.length - 4) ++ toLE4 (crc32_func (nd.take (nd.length - 4)))).length
      = nd.length
  rw [List.length_append, List.length_take]
  show min (nd.length - 4) nd.length + 4 = nd.length
  omega

/-- Witness for C2 at a six-byte payload: the returned value is the CRC of
the first two bytes. -/
theorem C2_witness :
    (update_crc { data := [], address := 0, start_address := 0 } [16, 32, 48, 64, 80, 96]).2
      = crc32_func [16, 32] :=
  (C2_update_writes_prefix_and_crc { data := [], address := 0, start_address := 0 }
    [16, 32, 48, 64, 80, 96] (by decide)).2.1

/-- C3 counterexample: `update_crc` on a new payload shorter than 4 bytes
returns normally (the embedding is a total function: the source has no
length check and no `InvalidPayloadError`) and does mutate the dataset's
payload, contradicting both the claimed exception and the claimed
atomicity. -/
theorem C3_counterexample :
    (update_crc { data := [9, 9, 9, 9, 9], address := 0, start_address := 0 } []).1.data
      ≠ [9, 9, 9, 9, 9] := by decide

/-- C3 (amended): for new data of fewer than 4 bytes `update_crc` does not
raise; it replaces the payload (the original payload is not preserved) with
the little-endian encoding of the CRC over the empty prefix, and returns
that CRC. -/
theorem C3_amended_short_payload_mutates (ds : DatasetODIS) (nd : List Nat)
    (h : nd.length < 4) :
    (update_crc ds nd).1.data = toLE4 ((update_crc ds nd).2)
      ∧ (update_crc ds nd).2 = crc32_func [] := by
  have ht : nd.take (nd.length - 4) = [] := by
    have h0 : nd.length - 4 = 0 := by omega
    rw [h0, List.take_zero]
  constructor
  · show nd.take (nd.length - 4) ++ toLE4 (crc32_func (nd.take (nd.length - 4)))
        = toLE4 (crc32_func (nd.take (nd.length - 4)))
    rw [ht, List.nil_append]
  · show crc32_func (nd.take (nd.length - 4)) = crc32_func []
    rw [ht]

/-- Witness for the amended C3 at the empty payload. -/
theorem C3_amended_witness :
    (update_crc { data := [9, 9, 9, 9, 9], address := 0, start_address := 0 } []).2
      = crc32_func [] :=
  (C3_amended_short_payload_mutates { data := [9, 9, 9, 9, 9], address := 0, start_address := 0 }
    [] (by decide)).2

/-- C4 counterexample: on the nine ASCII bytes of `"123456789"` the code's
checksum (crcmod with its default `rev=True`) yields 0xCBF43926, the check
value of the reflected standard CRC-32, while the non-reflected
polynomial-0x04C11DB7 / init-0 / xorout-0xFFFFFFFF parameterization the
claim asserts yields 0x765E7680; the two differ. -/
theorem C4_counterexample :
    crc32_func ascii123456789 = 0xCBF43926
      ∧ crcSpecNonReflected ascii123456789 = 0x765E7680
      ∧ crc32_func ascii123456789 ≠ crcSpecNonReflected ascii123456789 := by
  refine ⟨by decide, by decide, by decide⟩

/-- C4 (amended): the checksum used by `update_crc` is the reflected
(LSB-first) CRC-32 that crcmod's default `rev=True` produces from the
polynomial 0x104c11db7: its table polynomial is the bit-reversed
0xEDB88320, the register starts at `initCrc XOR xorOut = 0xFFFFFFFF`, the
result is XORed with 0xFFFFFFFF, and its value on the ASCII bytes of
`"123456789"` is the standard CRC-32 check value 0xCBF43926. -/
theorem C4_amended_reflected_crc :
    crcRevPoly = 0xEDB88320
      ∧ (CRC32_INIT_VALUE ^^^ CRC32_XOR_OUT) &&& 0xFFFFFFFF = 0xFFFFFFFF
      ∧ crc32_func ascii123456789 = 0xCBF43926 := by
  refine ⟨by decide, by decide, by decide⟩

/-- C10: for new data shorter than 4 bytes (including empty), `update_crc`
does not raise; every byte of the new data is discarded — the stored
payload becomes exactly the 4-byte little-endian encoding of the CRC over
the empty sequence, which is `[0, 0, 0, 0]` since that CRC is 0 — and that
CRC value 0 is returned. -/
theorem C10_short_payload_discards_bytes (ds : DatasetODIS) (nd : List Nat)
    (h : nd.length < 4) :
    (update_crc ds nd).1.data = [0, 0, 0, 0]
      ∧ (update_crc ds nd).1.data = toLE4 (crc32_func (List.take (nd.length - 4) nd))
      ∧ (update_crc ds nd).2 = 0 := by
  have ht : nd.take (nd.length - 4) = [] := by
    have h0 : nd.length - 4 = 0 := by omega
    rw [h0, List.take_zero]
  refine ⟨?_, ?_, ?_⟩
  · show nd.take (nd.length - 4) ++ toLE4 (crc32_func (nd.take (nd.length - 4))) = [0, 0, 0, 0]
    rw [ht]
    rfl
  · show nd.take (nd.length - 4) ++ toLE4 (crc32_func (nd.take (nd.length - 4)))
        = toLE4 (crc32_func (nd.take (nd.length - 4)))
    rw [ht, List.nil_append]
  · show crc32_func (nd.take (nd.length - 4)) = 0
    rw [ht]
    rfl

/-- Witness for C10 at a three-byte payload. -/
theorem C10_witness :
    (update_crc { data := [5], address := 0, start_address := 0 } [1, 2, 3]).1.data
      = [0, 0, 0, 0] :=
  (C10_short_payload_discards_bytes { data := [5], address := 0, start_address := 0 }
    [1, 2, 3] (by decide)).1

/-- C5: when the XML parser fails on a malformed document, the error is
re-raised by `parse_odis_file` (src lines 133-137) and propagated to the
caller unchanged; no dataset list is returned for such input. -/
theorem C5_parse_error_propagates (e : ETParseError) :
    parse_odis_file (Except.error e) = Except.error e := rfl

theorem parseLoop_eq_filterMap (l : List XMLElem) (acc : List DatasetODIS) :
    parseLoop l acc = acc ++ l.filterMap parseEntry := by
  induction l generalizing acc with
  | nil => simp [parseLoop]
  | cons p rest ih =>
    cases hp : parseEntry p with
    | some ds => simp [parseLoop, hp, ih, List.filterMap_cons]
    | none => simp [parseLoop, hp, ih, List.filterMap_cons]

/-- C6: for a well-formed document, an entry whose addresses or hex payload
fail to parse is skipped and parsing continues: `parse_odis_file` never
raises and returns exactly the datasets of the successfully parsed entries;
in particular a document with one valid entry and one invalid-hex entry
yields exactly the one valid dataset. -/
theorem C6_per_entry_errors_skipped :
    (∀ tree, parse_odis_file (Except.ok tree)
        = Except.ok ((iterPD tree).filterMap parseEntry))
      ∧ parse_odis_file (Except.ok mixedTree) = Except.ok [sampleDataset] := by
  constructor
  · intro tree
    show Except.ok (parseLoop (iterPD tree) []) = _
    rw [parseLoop_eq_filterMap, List.nil_append]
  · rfl

theorem vcpRoot_fields (ds : DatasetODIS) (input_name : Str) :
    vcpDataiidText (vcpRoot ds input_name)
        = some (pyOrStr ds.name (input_name ++ '-' :: pyHexLower ds.address))
      ∧ vcpDatenNameText (vcpRoot ds input_name)
        = some (pyOrStr ds.name (input_name ++ '-' :: pyHexLower ds.address))
      ∧ vcpStartAdrText (vcpRoot ds input_name)
        = some ('0' :: 'x' :: pyHexLower ds.start_address)
      ∧ vcpSizeText (vcpRoot ds input_name)
        = some ('0' :: 'x' :: natHex ds.data.length)
      ∧ vcpDatenText (vcpRoot ds input_name)
        = some (vcpHexEncode ds.data) :=
  ⟨rfl, rfl, rfl, rfl, rfl⟩

/-- C7 counterexample: a dataset whose name is present but empty (distinct
from absent) is serialized with the fallback data identifier, not with its
(empty) name: Python's `or` treats the empty string as falsy. -/
theorem C7_counterexample :
    vcpDataiidText (vcpRoot { data := [], address := 5, start_address := 0, name := some [] }
        "base".toList)
      = some "base-5".toList
      ∧ vcpDataiidText (vcpRoot { data := [], address := 5, start_address := 0, name := some [] }
          "base".toList)
        ≠ some [] := by
  refine ⟨rfl, by decide⟩

/-- C7 (amended): the serialized DATAIID and DATEN-NAME equal the dataset's
name whenever it is present and non-empty; when it is absent or present but
empty they equal the fallback `input_name`, hyphen, diagnostic address in
lowercase hex without leading zeros or `0x` prefix. -/
theorem C7_name_resolution (ds : DatasetODIS) (input_name : Str) :
    (∀ n, ds.name = some n → n ≠ [] →
        vcpDataiidText (vcpRoot ds input_name) = some n
          ∧ vcpDatenNameText (vcpRoot ds input_name) = some n)
      ∧ (ds.name = none ∨ ds.name = some [] →
        vcpDataiidText (vcpRoot ds input_name)
            = some (input_name ++ '-' :: pyHexLower ds.address)
          ∧ vcpDatenNameText (vcpRoot ds input_name)
            = some (input_name ++ '-' :: pyHexLower ds.address)) := by
  obtain ⟨h1, h2, -, -, -⟩ := vcpRoot_fields ds input_name
  constructor
  · intro n hn hne
    rw [h1, h2, hn]
    constructor <;> · show some (pyOrStr (some n) _) = some n
                      rw [pyOrStr, if_neg hne]
  · intro hn
    cases hn with
    | inl hn => rw [h1, h2, hn]; exact ⟨rfl, rfl⟩
    | inr hn =>
      rw [h1, h2, hn]
      exact ⟨rfl, rfl⟩

/-- Witness for C7 at a one-character name (first branch) and at an absent
name (second branch). -/
theorem C7_witness :
    vcpDataiidText (vcpRoot { data := [], address := 3, start_address := 0, name := some ['z'] }
        "in".toList)
      = some ['z']
      ∧ vcpDataiidText (vcpRoot { data := [], address := 3, start_address := 0 } "in".toList)
        = some "in-3".toList :=
  ⟨((C7_name_resolution { data := [], address := 3, start_address := 0, name := some ['z'] }
      "in".toList).1 ['z'] rfl (by decide)).1,
   ((C7_name_resolution { data := [], address := 3, start_address := 0 } "in".toList).2
      (Or.inl rfl)).1⟩

/-- C8: for every dataset the serialized data region carries the start
address as `0x`-prefixed lowercase hex, the decompressed size equal to the
payload byte length in the same format, and the payload in the canonical
hex encoding; concretely, the spec's sample entry (diagnostic address
`0x12`, start address `0x100`, payload `0x01,0x02,0x03,0x04`, no name
attribute, input base name `sample`) parses to `sampleDataset` and
serializes with data identifier `sample-12`, start address `0x100`, size
`0x4` and payload `0x01,0x02,0x03,0x04`. -/
theorem C8_data_region_fields :
    (∀ ds input_name,
        vcpStartAdrText (vcpRoot ds input_name)
            = some ('0' :: 'x' :: pyHexLower ds.start_address)
          ∧ vcpSizeText (vcpRoot ds input_name)
            = some ('0' :: 'x' :: natHex ds.data.length)
          ∧ vcpDatenText (vcpRoot ds input_name) = some (vcpHexEncode ds.data))
      ∧ parseEntry sampleEntry = some sampleDataset
      ∧ vcpDataiidText (vcpRoot sampleDataset "sample".toList) = some "sample-12".toList
      ∧ vcpStartAdrText (vcpRoot sampleDataset "sample".toList) = some "0x100".toList
      ∧ vcpSizeText (vcpRoot sampleDataset "sample".toList) = some "0x4".toList
      ∧ vcpDatenText (vcpRoot sampleDataset "sample".toList)
        = some "0x01,0x02,0x03,0x04".toList := by
  refine ⟨fun ds input_name => ?_, rfl, rfl, rfl, rfl, rfl⟩
  obtain ⟨-, -, h3, h4, h5⟩ := vcpRoot_fields ds input_name
  exact ⟨h3, h4, h5⟩

/-- C9: with a replacement payload supplied and at least one parsed
dataset, the update is applied to exactly the first dataset; every dataset
at a later index is serialized unchanged from its original bytes, and in
both the raw and the VCP output modes only the first conversion result is
written to the output sink. -/
theorem C9_update_and_export_first_only (d0 : DatasetODIS) (rest : List DatasetODIS)
    (nd : List Nat) (input_name : Str) (m : Bool) :
    (applyModinput (d0 :: rest) (some nd)).1 = (update_crc d0 nd).1 :: rest
      ∧ (applyModinput (d0 :: rest) (some nd)).2 = some (update_crc d0 nd).2
      ∧ convert_to_vcp ((applyModinput (d0 :: rest) (some nd)).1) input_name
        = convert_dataset_to_vcp (update_crc d0 nd).1 input_name
            :: rest.map (fun ds => convert_dataset_to_vcp ds input_name)
      ∧ (convert_to_vcp ((applyModinput (d0 :: rest) (some nd)).1) input_name).length
        = (d0 :: rest).length
      ∧ export_output (convert_to_vcp ((applyModinput (d0 :: rest) (some nd)).1) input_name)
          true m
        = some (Sum.inl (convert_dataset_to_vcp (update_crc d0 nd).1 input_name).dataset.data)
      ∧ export_output (convert_to_vcp ((applyModinput (d0 :: rest) (some nd)).1) input_name)
          false m
        = some (Sum.inr (convert_dataset_to_vcp (update_crc d0 nd).1 input_name).vcp) := by
  refine ⟨rfl, rfl, rfl, by simp [convert_to_vcp, applyModinput], rfl, ?_⟩
  cases m <;> rfl
